import Mathlib

/-!
Shallow embedding of `src/main.py` (azure-document-analyze).

The repository is a FastAPI service that sends scanned pages to an external
extraction provider and then normalizes, identity-checks and merges the
extracted field sets.  The provider call itself is external; every function
below embeds the pure post-extraction logic of `main.py`, translated
function by function.  Python strings become `String`/`List Char`, Python
dicts keyed by strings become association lists in insertion order, Python
truthiness of a string becomes the test against `""`, and raised
`HTTPException`s become `Except` errors.
-/

/-! ## Python string helpers -/

/-- Whitespace stripped by Python's `str.strip()` (the ASCII subset; the
exotic Unicode space code points never occur in the values at issue). -/
def pySpace (c : Char) : Bool :=
  c = ' ' || c = '\t' || c = '\n' || c = '\r' || c = '\x0b' || c = '\x0c'

/-- `str.strip()`: drop leading and trailing whitespace. -/
def pyStripList (l : List Char) : List Char :=
  List.rdropWhile pySpace (l.dropWhile pySpace)

/-- One attempt of the regex `(\d+,\d+)\n\1` at the head of `l`
(the pattern of `re.sub` in `DocumentProcessor.clean_value`,
`src/main.py:36`).  Both `\d+` runs are maximal: a shorter run would be
followed by a digit, which can match neither `,` nor `\n`, so backtracking
never helps and the match is deterministic.  On success it returns the
text of group 1 (the replacement) and the input remaining after the whole
match. -/
def matchDup (l : List Char) : Option (List Char × List Char) :=
  if l.takeWhile Char.isDigit = [] then none
  else
    match l.dropWhile Char.isDigit with
    | ',' :: r2 =>
      if r2.takeWhile Char.isDigit = [] then none
      else
        match r2.dropWhile Char.isDigit with
        | '\n' :: r4 =>
          let g := l.takeWhile Char.isDigit ++ ',' :: r2.takeWhile Char.isDigit
          if g.isPrefixOf r4 then some (g, r4.drop g.length) else none
        | _ => none
    | _ => none

/-- Left-to-right scan of `re.sub(r'(\d+,\d+)\n\1', r'\1', s)`: at each
position try the pattern; on a match emit group 1 and continue after the
match, otherwise emit one character and advance.  The fuel argument only
bounds the recursion; a successful match consumes at least three
characters, so the initial fuel `l.length` is never exhausted. -/
def subDupGo : Nat → List Char → List Char
  | _, [] => []
  | 0, l => l
  | fuel + 1, c :: rest =>
    match matchDup (c :: rest) with
    | some (g, after) => g ++ subDupGo fuel after
    | none => c :: subDupGo fuel rest

/-- `re.sub(r'(\d+,\d+)\n\1', r'\1', s)` over the whole string. -/
def subDup (l : List Char) : List Char :=
  subDupGo l.length l

/-- `DocumentProcessor.clean_value` (`src/main.py:31-37`): empty input
short-circuits to `""`; otherwise collapse the duplicated-number pattern
and strip surrounding whitespace.  The `field_name` argument is accepted
and ignored, exactly as in the source. -/
def clean_value (fieldName value : String) : String :=
  if value = "" then "" else (pyStripList (subDup value.data)).asString

/-- `clean_financial_value` (`src/main.py:371-382`, local to
`process_single_file`): falsy input is returned as is; otherwise strip,
and if a line break remains keep only the stripped text before the first
line break. -/
def clean_financial_value (value : String) : String :=
  if value = "" then value
  else
    if '\n' ∈ pyStripList value.data then
      (pyStripList ((pyStripList value.data).takeWhile (fun c => c ≠ '\n'))).asString
    else (pyStripList value.data).asString

/-! ## Fixed schema records (`organize_data`, `organize_license_data`) -/

/-- Section `invoice_information` of the general-document schema. -/
structure InvoiceInformation where
  invoice_number : String
  costumer_number : String
  order_number : String
  date_of_delivery : String
deriving DecidableEq

/-- Section `vehicle_information` of the general-document schema. -/
structure VehicleInformation where
  operating_number : String
  first_registration : String
  service_consultant : String
  km_status : String
deriving DecidableEq

/-- Section `financial_information` of the general-document schema. -/
structure FinancialInformation where
  work_price : String
  material_price : String
  tax_basis : String
  vat_percentage : String
  vat_total : String
  total_amount : String
deriving DecidableEq

/-- An organized record: the fixed sections produced by
`DocumentProcessor.organize_data`. -/
structure Analysis where
  invoice_information : InvoiceInformation
  vehicle_information : VehicleInformation
  financial_information : FinancialInformation
deriving DecidableEq

/-- A record paired with its originating filename, as the processor-level
functions receive it (`{"analysis": ..., "filename": ...}`). -/
structure PageResult where
  analysis : Analysis
  filename : String
deriving DecidableEq

/-- Python dict lookup returning `None` when the key is missing.  Dicts are
association lists in insertion order. -/
def dictGet (d : List (String × String)) (k : String) : Option String :=
  (d.find? (fun p => p.1 == k)).map (fun p => p.2)

/-- Python `raw_data.get(name, "")`. -/
def rawGet (d : List (String × String)) (k : String) : String :=
  (dictGet d k).getD ""

/-- `DocumentProcessor.organize_data` (`src/main.py:39-62`): map provider
field names into the fixed schema; missing names default to `""`; the
financial fields (except `vat_percentage`) pass through `clean_value`. -/
def organize_data (raw : List (String × String)) : Analysis :=
  { invoice_information :=
      { invoice_number := rawGet raw "invoice number"
        costumer_number := rawGet raw "costumer number"
        order_number := rawGet raw "order number"
        date_of_delivery := rawGet raw "date/day of delivery" }
    vehicle_information :=
      { operating_number := rawGet raw "operating number"
        first_registration := rawGet raw "date of first registration"
        service_consultant := rawGet raw "service consultant"
        km_status := rawGet raw "km-status" }
    financial_information :=
      { work_price := clean_value "work price" (rawGet raw "work price total")
        material_price := clean_value "material price" (rawGet raw "material price total")
        tax_basis := clean_value "tax basis" (rawGet raw "tax basis")
        vat_percentage := rawGet raw "VAT percentage"
        vat_total := clean_value "vat total" (rawGet raw "VAT total")
        total_amount := clean_value "total amount" (rawGet raw "total amount") } }

/-- The single `vehicle_information` section of the license schema. -/
structure LicenseVehicleInformation where
  model : String
  marke : String
  fin : String
  erstzulassung : String
  letze_wartung : String
  type_variant_version : String
deriving DecidableEq

/-- The license-profile record (`organize_license_data` output shape). -/
structure LicenseAnalysis where
  vehicle_information : LicenseVehicleInformation
deriving DecidableEq

/-- License record plus originating filename. -/
structure LicensePageResult where
  analysis : LicenseAnalysis
  filename : String
deriving DecidableEq

/-- `DocumentProcessor.organize_license_data` (`src/main.py:199-209`). -/
def organize_license_data (raw : List (String × String)) : LicenseAnalysis :=
  { vehicle_information :=
      { model := rawGet raw "model"
        marke := rawGet raw "marke"
        fin := rawGet raw "fin"
        erstzulassung := rawGet raw "erstzulassung"
        letze_wartung := rawGet raw "letze wartung"
        type_variant_version := rawGet raw "type/variant/version" } }

/-! ## Identity matchers -/

/-- One term of Python's `sum(1 for id1, id2 in identifiers if id1 and id2
and id1 == id2)`: both values truthy (non-empty) and equal. -/
def agreeBit (x y : String) : Nat :=
  if x ≠ "" ∧ y ≠ "" ∧ x = y then 1 else 0

/-- `DocumentProcessor.are_same_document` (`src/main.py:92-125`): count the
agreeing fields among the seven identifier fields and accept at three or
more. -/
def are_same_document (doc1 doc2 : PageResult) : Bool :=
  decide (3 ≤
    agreeBit doc1.analysis.invoice_information.costumer_number
      doc2.analysis.invoice_information.costumer_number +
    agreeBit doc1.analysis.invoice_information.order_number
      doc2.analysis.invoice_information.order_number +
    agreeBit doc1.analysis.invoice_information.date_of_delivery
      doc2.analysis.invoice_information.date_of_delivery +
    agreeBit doc1.analysis.vehicle_information.operating_number
      doc2.analysis.vehicle_information.operating_number +
    agreeBit doc1.analysis.vehicle_information.first_registration
      doc2.analysis.vehicle_information.first_registration +
    agreeBit doc1.analysis.vehicle_information.service_consultant
      doc2.analysis.vehicle_information.service_consultant +
    agreeBit doc1.analysis.vehicle_information.km_status
      doc2.analysis.vehicle_information.km_status)

/-- `DocumentProcessor.are_same_vehicle` (`src/main.py:211-226`): the
three-if chain counts agreements on `fin`, `model` and `marke` and accepts
at two or more. -/
def are_same_vehicle (doc1 doc2 : LicensePageResult) : Bool :=
  decide (2 ≤
    agreeBit doc1.analysis.vehicle_information.fin
      doc2.analysis.vehicle_information.fin +
    agreeBit doc1.analysis.vehicle_information.model
      doc2.analysis.vehicle_information.model +
    agreeBit doc1.analysis.vehicle_information.marke
      doc2.analysis.vehicle_information.marke)

/-! ## Merge reducers on the fixed schema -/

/-- Python's `for i in range(len(results)-1): are_same_document(results[i],
results[i+1])` check: every adjacent pair matches. -/
def adjacentOk : List PageResult → Bool
  | [] => true
  | [_] => true
  | a :: b :: rest => are_same_document a b && adjacentOk (b :: rest)

/-- The fill-once cell update of `combine_results`: `if not combined[s][f]
and result["analysis"][s][f]: combined[s][f] = ...`, folded over the
records in input order from the initial `""`. -/
def mergeField (vs : List String) : String :=
  vs.foldl (fun acc v => if acc = "" ∧ v ≠ "" then v else acc) ""

/-- The first non-empty string of the list, or `""`. -/
def firstNonEmpty : List String → String
  | [] => ""
  | v :: vs => if v ≠ "" then v else firstNonEmpty vs

/-- `DocumentProcessor.combine_results` (`src/main.py:127-171`): reject
(HTTP 400, carrying the filenames) when some adjacent pair fails
`are_same_document`, otherwise fill every section/key once, earliest
non-empty value wins. -/
def combine_results (results : List PageResult) : Except (List String) Analysis :=
  if adjacentOk results then
    .ok
      { invoice_information :=
          { invoice_number :=
              mergeField (results.map fun r => r.analysis.invoice_information.invoice_number)
            costumer_number :=
              mergeField (results.map fun r => r.analysis.invoice_information.costumer_number)
            order_number :=
              mergeField (results.map fun r => r.analysis.invoice_information.order_number)
            date_of_delivery :=
              mergeField (results.map fun r => r.analysis.invoice_information.date_of_delivery) }
        vehicle_information :=
          { operating_number :=
              mergeField (results.map fun r => r.analysis.vehicle_information.operating_number)
            first_registration :=
              mergeField (results.map fun r => r.analysis.vehicle_information.first_registration)
            service_consultant :=
              mergeField (results.map fun r => r.analysis.vehicle_information.service_consultant)
            km_status :=
              mergeField (results.map fun r => r.analysis.vehicle_information.km_status) }
        financial_information :=
          { work_price :=
              mergeField (results.map fun r => r.analysis.financial_information.work_price)
            material_price :=
              mergeField (results.map fun r => r.analysis.financial_information.material_price)
            tax_basis :=
              mergeField (results.map fun r => r.analysis.financial_information.tax_basis)
            vat_percentage :=
              mergeField (results.map fun r => r.analysis.financial_information.vat_percentage)
            vat_total :=
              mergeField (results.map fun r => r.analysis.financial_information.vat_total)
            total_amount :=
              mergeField (results.map fun r => r.analysis.financial_information.total_amount) } }
  else .error (results.map fun r => r.filename)

/-- `DocumentProcessor.combine_license_results` (`src/main.py:228-246`):
fill-once over the six license fields, no identity check, never fails. -/
def combine_license_results (results : List LicensePageResult) : LicenseAnalysis :=
  { vehicle_information :=
      { model := mergeField (results.map fun r => r.analysis.vehicle_information.model)
        marke := mergeField (results.map fun r => r.analysis.vehicle_information.marke)
        fin := mergeField (results.map fun r => r.analysis.vehicle_information.fin)
        erstzulassung :=
          mergeField (results.map fun r => r.analysis.vehicle_information.erstzulassung)
        letze_wartung :=
          mergeField (results.map fun r => r.analysis.vehicle_information.letze_wartung)
        type_variant_version :=
          mergeField (results.map fun r => r.analysis.vehicle_information.type_variant_version) } }

/-! ## The `/analyze/` endpoint path (`analyze_files`, `src/main.py:248-343`)

`process_single_file` builds its records as plain dicts keyed by raw
provider field names (empty fields are skipped, so absent keys stand for
absent values).  The endpoint validates and merges those dicts.  The
provider call is external; a page enters the model as its extracted
record plus filename. -/

/-- A `process_single_file` record: three sections, each a dict from raw
provider field names to the non-empty values that were extracted. -/
structure DictAnalysis where
  invoice_information : List (String × String)
  vehicle_information : List (String × String)
  financial_information : List (String × String)
deriving DecidableEq

/-- A dict record plus originating filename. -/
structure DictPage where
  analysis : DictAnalysis
  filename : String
deriving DecidableEq

/-- Python `d[k] = v`: update in place, or append a new key at the end. -/
def dictSet (d : List (String × String)) (k v : String) : List (String × String) :=
  if (d.find? (fun p => p.1 == k)).isSome then
    d.map (fun p => if p.1 == k then (p.1, v) else p)
  else d ++ [(k, v)]

/-- One field of the endpoint merge (`src/main.py:328-330`): keep the
stored value unless the key is new or the incoming value is strictly
longer. -/
def mergeLongestField (acc : List (String × String)) (kv : String × String) :
    List (String × String) :=
  match dictGet acc kv.1 with
  | none => dictSet acc kv.1 kv.2
  | some old => if old.length < kv.2.length then dictSet acc kv.1 kv.2 else acc

/-- Fold one section dict into the accumulated section, field by field in
insertion order. -/
def mergeLongestSection (acc sec : List (String × String)) : List (String × String) :=
  sec.foldl mergeLongestField acc

/-- The endpoint merge loop (`src/main.py:323-330`): every category of
every record, longest value wins. -/
def combineAnalyses (pages : List DictPage) : DictAnalysis :=
  pages.foldl
    (fun acc p =>
      { invoice_information :=
          mergeLongestSection acc.invoice_information p.analysis.invoice_information
        vehicle_information :=
          mergeLongestSection acc.vehicle_information p.analysis.vehicle_information
        financial_information :=
          mergeLongestSection acc.financial_information p.analysis.financial_information })
    ⟨[], [], []⟩

/-- The validation fields of the multi-page path (`src/main.py:270-276`). -/
def validation_fields : List (String × String) :=
  [("invoice_information", "invoice number"),
   ("invoice_information", "costumer number"),
   ("invoice_information", "order number"),
   ("vehicle_information", "operating number"),
   ("invoice_information", "unit/chassis number")]

/-- Python `analysis["analysis"][category]`: the record always carries
exactly the three section keys, any other category is absent. -/
def sectionOf (a : DictAnalysis) (category : String) : List (String × String) :=
  if category = "invoice_information" then a.invoice_information
  else if category = "vehicle_information" then a.vehicle_information
  else if category = "financial_information" then a.financial_information
  else []

/-- The distinct values a validation field takes across the pages that
carry it (the `values` set of `src/main.py:295-297`; pages where the field
is absent contribute nothing). -/
def fieldValues (pages : List DictPage) (cf : String × String) : List String :=
  (pages.filterMap (fun p => dictGet (sectionOf p.analysis cf.1) cf.2)).dedup

/-- The mismatch report (`src/main.py:292-300`): every validation field
that takes two or more distinct values, with those values.  (Python
iterates the key set in unspecified order; emptiness of the report does
not depend on that order.) -/
def mismatchFields (pages : List DictPage) : List (String × List String) :=
  validation_fields.filterMap (fun cf =>
    if 2 ≤ (fieldValues pages cf).length then
      some (cf.1 ++ "." ++ cf.2, fieldValues pages cf)
    else none)

/-- A raised `HTTPException`: status code plus detail message. -/
structure HttpError where
  status : Nat
  detail : String
deriving DecidableEq

/-- The three response bodies the `/analyze/` handler can return. -/
inductive AnalyzePayload where
  | single (page : DictPage)
  | mismatch (mismatches : List (String × List String)) (filenames : List String)
  | merged (analysis : DictAnalysis) (filenames : List String)
deriving DecidableEq

/-- The `try` body of `analyze_files`: empty batch raises HTTP 400; a
single file is returned directly; multiple files are validated and then
merged, a detected mismatch returning a plain (HTTP 200) error payload. -/
def analyze_files_body : List DictPage → Except HttpError AnalyzePayload
  | [] => .error ⟨400, "No files provided"⟩
  | [p] => .ok (.single p)
  | pages =>
    if mismatchFields pages ≠ [] then
      .ok (.mismatch (mismatchFields pages) (pages.map fun p => p.filename))
    else .ok (.merged (combineAnalyses pages) (pages.map fun p => p.filename))

/-- `analyze_files` (`src/main.py:248-343`): the whole body runs inside
`try/except Exception`, and `HTTPException` is an `Exception`, so any
raise inside the body — including the deliberate 400s — is caught and
re-raised as HTTP 500 with the wrapped message. -/
def analyze_files (pages : List DictPage) : Except HttpError AnalyzePayload :=
  match analyze_files_body pages with
  | .ok r => .ok r
  | .error e => .error ⟨500, "Error processing document: " ++ e.detail⟩

/-- Recognizer for the mismatch-rejection outcome of `/analyze/`. -/
def isMismatchReject : Except HttpError AnalyzePayload → Bool
  | .ok (.mismatch _ _) => true
  | _ => false

/-! ## The `/analyze-license/` endpoint (`analyze_license`, `src/main.py:431-523`)

A file enters the model as its extracted field dict (name to content;
the handler only uses contentful fields). -/

/-- Field access of the handler: key present and content truthy. -/
def licenseFieldOf (fields : List (String × String)) (name : String) : Option String :=
  match dictGet fields name with
  | some v => if v = "" then none else some v
  | none => none

/-- The two response bodies of the license handler. -/
inductive LicensePayload where
  | differentVehicles (plates fins : List String)
  | licenseData (data : List (String × String))
deriving DecidableEq

/-- The `try` body of `analyze_license`: collect the distinct licence
plates and FINs, merge all contentful fields longest-wins, and reject
only when more than one distinct plate or more than one distinct FIN was
seen.  (The per-file `doc_identifier` set of `src/main.py:486-493` is
computed but never used for validation, so it is omitted.) -/
def analyze_license_body (files : List (List (String × String))) :
    Except HttpError LicensePayload :=
  if files = [] then .error ⟨400, "No files provided"⟩
  else
    if 2 ≤ ((files.filterMap (fun f => licenseFieldOf f "A: Licence plate")).dedup).length ∨
       2 ≤ ((files.filterMap (fun f => licenseFieldOf f "E: FIN")).dedup).length then
      .ok (.differentVehicles
        ((files.filterMap (fun f => licenseFieldOf f "A: Licence plate")).dedup)
        ((files.filterMap (fun f => licenseFieldOf f "E: FIN")).dedup))
    else
      .ok (.licenseData
        (files.foldl (fun acc f => mergeLongestSection acc (f.filter (fun kv => kv.2 ≠ ""))) []))

/-- `analyze_license` with its blanket `except Exception` wrapper, which
converts the deliberate 400s into HTTP 500 exactly as in `analyze_files`. -/
def analyze_license (files : List (List (String × String))) :
    Except HttpError LicensePayload :=
  match analyze_license_body files with
  | .ok r => .ok r
  | .error e => .error ⟨500, "Error processing document: " ++ e.detail⟩

/-! ## Specification-side formulations (for the claims that compare the
source against the spec's wording) -/

/-- The identifier-field values of a general-document record, in the order
`are_same_document` lists them. -/
def docIdentifierValues (x : Analysis) : List String :=
  [x.invoice_information.costumer_number,
   x.invoice_information.order_number,
   x.invoice_information.date_of_delivery,
   x.vehicle_information.operating_number,
   x.vehicle_information.first_registration,
   x.vehicle_information.service_consultant,
   x.vehicle_information.km_status]

/-- The identifier-field values of a license record, in the order
`are_same_vehicle` checks them. -/
def vehicleIdentifierValues (x : LicenseAnalysis) : List String :=
  [x.vehicle_information.fin,
   x.vehicle_information.model,
   x.vehicle_information.marke]

/-- Modelled from the spec: the agreement count of the Identity Matcher
(§4.3) — the number of identifier positions at which both records are
non-empty and equal. -/
def agreementCount (xs ys : List String) : Nat :=
  (xs.zip ys).countP (fun p => decide (p.1 ≠ "" ∧ p.2 ≠ "" ∧ p.1 = p.2))

/-! ## Helper lemmas -/

theorem head_not_of_dropWhile {p : Char → Bool} :
    ∀ {l : List Char} {a : Char} {t : List Char},
      l.dropWhile p = a :: t → p a = false := by
  intro l
  induction l with
  | nil => intro a t h; simp [List.dropWhile] at h
  | cons x xs ih =>
    intro a t h
    rw [List.dropWhile_cons] at h
    by_cases hx : p x
    · rw [if_pos hx] at h; exact ih h
    · rw [if_neg hx] at h
      obtain ⟨rfl, -⟩ := List.cons.inj h
      simpa using hx

theorem pyStrip_drop_self (l : List Char) :
    (pyStripList l).dropWhile pySpace = pyStripList l := by
  rcases hB : pyStripList l with - | ⟨b, B⟩
  · simp
  · obtain ⟨t, ht⟩ := List.rdropWhile_prefix pySpace (l.dropWhile pySpace)
    rw [show List.rdropWhile pySpace (l.dropWhile pySpace) = pyStripList l from rfl, hB] at ht
    have h' : l.dropWhile pySpace = b :: (B ++ t) := by rw [← ht]; simp
    have hb := head_not_of_dropWhile h'
    simp [List.dropWhile_cons, hb]

theorem pyStrip_idem (l : List Char) :
    pyStripList (pyStripList l) = pyStripList l := by
  show List.rdropWhile pySpace ((pyStripList l).dropWhile pySpace) = pyStripList l
  rw [pyStrip_drop_self]
  show List.rdropWhile pySpace (List.rdropWhile pySpace (l.dropWhile pySpace)) = _
  exact List.rdropWhile_idempotent pySpace _

theorem pyStrip_subset {c : Char} {l : List Char} (h : c ∈ pyStripList l) : c ∈ l := by
  have h1 : c ∈ l.dropWhile pySpace :=
    ( List.rdropWhile_prefix pySpace (l.dropWhile pySpace)).subset h
  exact (List.dropWhile_suffix pySpace).subset h1

theorem matchDup_eq_none_of_no_newline {l : List Char} (h : '\n' ∉ l) :
    matchDup l = none := by
  unfold matchDup
  split
  · rfl
  · split
    · next r2 heq =>
      split
      · rfl
      · split
        · next r4 heq2 =>
          exfalso
          apply h
          have h3 : '\n' ∈ r2.dropWhile Char.isDigit := by
            rw [heq2]; exact List.mem_cons_self _ _
          have h2 : '\n' ∈ r2 := (List.dropWhile_suffix Char.isDigit).subset h3
          have h1 : '\n' ∈ l.dropWhile Char.isDigit := by
            rw [heq]; exact List.mem_cons_of_mem _ h2
          exact (List.dropWhile_suffix Char.isDigit).subset h1
        · rfl
    · rfl

theorem subDupGo_eq_self :
    ∀ (fuel : Nat) (l : List Char), '\n' ∉ l → subDupGo fuel l = l
  | 0, [], _ => rfl
  | 0, _ :: _, _ => rfl
  | _ + 1, [], _ => rfl
  | fuel + 1, c :: rest, h => by
    have hrest : subDupGo fuel rest = rest :=
      subDupGo_eq_self fuel rest (fun hm => h (List.mem_cons_of_mem _ hm))
    simp [subDupGo, matchDup_eq_none_of_no_newline h, hrest]

theorem subDup_eq_self {l : List Char} (h : '\n' ∉ l) : subDup l = l :=
  subDupGo_eq_self l.length l h

theorem mergeField_foldl (vs : List String) :
    ∀ acc, vs.foldl (fun acc v => if acc = "" ∧ v ≠ "" then v else acc) acc =
      if acc = "" then firstNonEmpty vs else acc := by
  induction vs with
  | nil => intro acc; by_cases h : acc = "" <;> simp [firstNonEmpty, h]
  | cons v t ih =>
    intro acc
    by_cases h : acc = ""
    · subst h
      by_cases hv : v = ""
      · simp [List.foldl_cons, hv, ih, firstNonEmpty]
      · simp [List.foldl_cons, hv, ih, firstNonEmpty]
    · simp [List.foldl_cons, h, ih]

theorem mergeField_eq_firstNonEmpty (vs : List String) :
    mergeField vs = firstNonEmpty vs := by
  simp [mergeField, mergeField_foldl]

theorem firstNonEmpty_all_empty :
    ∀ vs : List String, (∀ v ∈ vs, v = "") → firstNonEmpty vs = "" := by
  intro vs
  induction vs with
  | nil => intro; rfl
  | cons v t ih =>
    intro h
    have hv : v = "" := h v (List.mem_cons_self _ _)
    simp [firstNonEmpty, hv, ih (fun w hw => h w (List.mem_cons_of_mem _ hw))]

theorem agreeBit_symm (x y : String) : agreeBit x y = agreeBit y x := by
  unfold agreeBit
  refine if_congr ?_ rfl rfl
  constructor
  · rintro ⟨h1, h2, h3⟩; exact ⟨h2, h1, h3.symm⟩
  · rintro ⟨h1, h2, h3⟩; exact ⟨h2, h1, h3.symm⟩

theorem agreementCount_nil : agreementCount [] [] = 0 := rfl

theorem agreementCount_cons (x y : String) (xs ys : List String) :
    agreementCount (x :: xs) (y :: ys) = agreeBit x y + agreementCount xs ys := by
  unfold agreementCount agreeBit
  rw [List.zip_cons_cons, List.countP_cons]
  by_cases h : x ≠ "" ∧ y ≠ "" ∧ x = y <;> simp [h] <;> omega

theorem two_le_dedup_iff (l : List String) :
    2 ≤ l.dedup.length ↔ ∃ a ∈ l, ∃ b ∈ l, a ≠ b := by
  constructor
  · intro h
    have hn : l.dedup.Nodup := l.nodup_dedup
    rcases hd : l.dedup with - | ⟨a, - | ⟨b, t⟩⟩
    · rw [hd] at h; simp at h
    · rw [hd] at h; simp at h
    · rw [hd] at hn
      have hab : a ≠ b := by
        intro hcontra
        subst hcontra
        exact (List.nodup_cons.mp hn).1 (List.mem_cons_self _ _)
      refine ⟨a, ?_, b, ?_, hab⟩
      · rw [← List.mem_dedup, hd]; exact List.mem_cons_self _ _
      · rw [← List.mem_dedup, hd]
        exact List.mem_cons_of_mem _ (List.mem_cons_self _ _)
  · rintro ⟨a, ha, b, hb, hab⟩
    have ha' : a ∈ l.dedup := List.mem_dedup.mpr ha
    have hb' : b ∈ l.dedup := List.mem_dedup.mpr hb
    rcases hd : l.dedup with - | ⟨x, - | ⟨y, t⟩⟩
    · rw [hd] at ha'; simp at ha'
    · rw [hd] at ha' hb'
      simp at ha' hb'
      exact absurd (ha'.trans hb'.symm) hab
    · simp

theorem mismatchFields_ne_nil_iff (pages : List DictPage) :
    mismatchFields pages ≠ [] ↔
      ∃ cf ∈ validation_fields, 2 ≤ (fieldValues pages cf).length := by
  unfold mismatchFields
  rw [Ne, List.filterMap_eq_nil]
  push_neg
  constructor
  · rintro ⟨cf, hcf, hne⟩
    refine ⟨cf, hcf, ?_⟩
    by_contra hlt
    exact hne (by simp [if_neg hlt])
  · rintro ⟨cf, hcf, hle⟩
    exact ⟨cf, hcf, by simp [if_pos hle]⟩

theorem fieldValues_two_iff (pages : List DictPage) (cf : String × String) :
    2 ≤ (fieldValues pages cf).length ↔
      ∃ p ∈ pages, ∃ q ∈ pages, ∃ v w,
        dictGet (sectionOf p.analysis cf.1) cf.2 = some v ∧
        dictGet (sectionOf q.analysis cf.1) cf.2 = some w ∧ v ≠ w := by
  unfold fieldValues
  rw [two_le_dedup_iff]
  constructor
  · rintro ⟨a, ha, b, hb, hab⟩
    obtain ⟨p, hp, hpa⟩ := List.mem_filterMap.mp ha
    obtain ⟨q, hq, hqb⟩ := List.mem_filterMap.mp hb
    exact ⟨p, hp, q, hq, a, b, hpa, hqb, hab⟩
  · rintro ⟨p, hp, q, hq, v, w, hv, hw, hvw⟩
    exact ⟨v, List.mem_filterMap.mpr ⟨p, hp, hv⟩, w, List.mem_filterMap.mpr ⟨q, hq, hw⟩, hvw⟩

theorem clean_value_empty (name : String) : clean_value name "" = "" := rfl

/-! ## Claims -/

/-- C1, counterexample: `clean_value` is not idempotent.  On
`"1,2\n1,2\n1,2"` the first substitution pass collapses only the first
duplication (the scan resumes after the match), leaving `"1,2\n1,2"`,
which a second pass collapses further to `"1,2"`. -/
theorem c1_counterexample :
    clean_value "work price" (clean_value "work price" "1,2\n1,2\n1,2") ≠
      clean_value "work price" "1,2\n1,2\n1,2" := by decide

/-- C1, amended: normalization is idempotent on every input without a line
break (the duplication pattern needs a line break, so cleaning such input
is a plain strip, and stripping is idempotent); on inputs with line breaks
a second pass can differ. -/
theorem c1_idempotent_without_linebreak (name value : String)
    (h : '\n' ∉ value.data) :
    clean_value name (clean_value name value) = clean_value name value := by
  by_cases hv : value = ""
  · subst hv; rfl
  · have hsub : subDup value.data = value.data := subDup_eq_self h
    have h1 : clean_value name value = (pyStripList value.data).asString := by
      simp only [clean_value, if_neg hv, hsub]
    rw [h1]
    by_cases hw : (pyStripList value.data).asString = ""
    · rw [hw]; rfl
    · have hnw : '\n' ∉ pyStripList value.data := fun hc => h (pyStrip_subset hc)
      simp only [clean_value, if_neg hw]
      show (pyStripList (subDup (pyStripList value.data))).asString = _
      rw [subDup_eq_self hnw, pyStrip_idem]

/-- C1, witness for the amended theorem at the concrete input `"  12  "`. -/
theorem c1_witness :
    ('\n' ∉ ("  12  " : String).data) ∧
      clean_value "f" (clean_value "f" "  12  ") = clean_value "f" "  12  " :=
  ⟨by decide, c1_idempotent_without_linebreak "f" "  12  " (by decide)⟩

/-- C2, counterexample: `clean_value` does not remove line breaks — only
the duplicated-number pattern is collapsed, so `"ab\ncd"` passes through
with its line break intact. -/
theorem c2_counterexample : '\n' ∈ (clean_value "some field" "ab\ncd").data := by
  decide

/-- C2, amended: the normalizers are total (the embedding maps every input
to a string), and it is `clean_financial_value` — not `clean_value` —
whose result never contains a line break: it keeps only the stripped text
before the first line break. -/
theorem c2_financial_no_linebreak (value : String) :
    '\n' ∉ (clean_financial_value value).data := by
  unfold clean_financial_value
  split
  · next hv => subst hv; simp
  · split
    · next hmem =>
      intro hc
      have h1 : '\n' ∈ (pyStripList value.data).takeWhile (fun c => c ≠ '\n') :=
        pyStrip_subset hc
      have h2 := List.mem_takeWhile_imp h1
      simp at h2
    · next hmem =>
      intro hc
      exact hmem hc

/-- C3: both identity comparators are symmetric — every per-field
agreement test is symmetric in its two sides, so the agreement counts and
the threshold tests agree under swapping the records. -/
theorem c3_identity_match_symmetric (a b : PageResult) (c d : LicensePageResult) :
    are_same_document a b = are_same_document b a ∧
      are_same_vehicle c d = are_same_vehicle d c := by
  constructor
  · unfold are_same_document
    rw [agreeBit_symm b.analysis.invoice_information.costumer_number
          a.analysis.invoice_information.costumer_number,
        agreeBit_symm b.analysis.invoice_information.order_number
          a.analysis.invoice_information.order_number,
        agreeBit_symm b.analysis.invoice_information.date_of_delivery
          a.analysis.invoice_information.date_of_delivery,
        agreeBit_symm b.analysis.vehicle_information.operating_number
          a.analysis.vehicle_information.operating_number,
        agreeBit_symm b.analysis.vehicle_information.first_registration
          a.analysis.vehicle_information.first_registration,
        agreeBit_symm b.analysis.vehicle_information.service_consultant
          a.analysis.vehicle_information.service_consultant,
        agreeBit_symm b.analysis.vehicle_information.km_status
          a.analysis.vehicle_information.km_status]
  · unfold are_same_vehicle
    rw [agreeBit_symm d.analysis.vehicle_information.fin
          c.analysis.vehicle_information.fin,
        agreeBit_symm d.analysis.vehicle_information.model
          c.analysis.vehicle_information.model,
        agreeBit_symm d.analysis.vehicle_information.marke
          c.analysis.vehicle_information.marke]

/-- C4, counterexample: two records agreeing on exactly three of the seven
identifier fields are accepted by `are_same_document`, yet three is below
the strict majority (rounded up) of seven, which is `7 / 2 + 1 = 4`. -/
theorem c4_counterexample :
    are_same_document
        ⟨⟨⟨"", "111", "222", "333"⟩, ⟨"", "", "", ""⟩, ⟨"", "", "", "", "", ""⟩⟩, "p1.pdf"⟩
        ⟨⟨⟨"", "111", "222", "333"⟩, ⟨"", "", "", ""⟩, ⟨"", "", "", "", "", ""⟩⟩, "p2.pdf"⟩ = true ∧
      agreementCount
        (docIdentifierValues
          ⟨⟨"", "111", "222", "333"⟩, ⟨"", "", "", ""⟩, ⟨"", "", "", "", "", ""⟩⟩)
        (docIdentifierValues
          ⟨⟨"", "111", "222", "333"⟩, ⟨"", "", "", ""⟩, ⟨"", "", "", "", "", ""⟩⟩) = 3 ∧
      ¬ 7 / 2 + 1 ≤ 3 := by
  refine ⟨by decide, by decide, by decide⟩

/-- C4, amended: each comparator accepts exactly when the agreement count
over its identifier fields reaches its hard-coded threshold — three of the
seven general-document fields (below the strict majority four) and two of
the three vehicle fields (which does equal the strict majority of
three). -/
theorem c4_thresholds (a b : PageResult) (c d : LicensePageResult) :
    (are_same_document a b = true ↔
      3 ≤ agreementCount (docIdentifierValues a.analysis) (docIdentifierValues b.analysis)) ∧
    (are_same_vehicle c d = true ↔
      2 ≤ agreementCount (vehicleIdentifierValues c.analysis)
            (vehicleIdentifierValues d.analysis)) ∧
    (docIdentifierValues a.analysis).length = 7 ∧
    (vehicleIdentifierValues c.analysis).length = 3 := by
  refine ⟨?_, ?_, rfl, rfl⟩
  · unfold docIdentifierValues
    rw [agreementCount_cons, agreementCount_cons, agreementCount_cons, agreementCount_cons,
        agreementCount_cons, agreementCount_cons, agreementCount_cons, agreementCount_nil]
    unfold are_same_document
    rw [decide_eq_true_eq]
    omega
  · unfold vehicleIdentifierValues
    rw [agreementCount_cons, agreementCount_cons, agreementCount_cons, agreementCount_nil]
    unfold are_same_vehicle
    rw [decide_eq_true_eq]
    omega

/-- C5, counterexample: the `/analyze-license/` endpoint merges a
two-file batch in which no identifier field (licence plate, FIN — nor any
`are_same_vehicle` field) is populated on either side, instead of
rejecting it: the ambiguous batch yields combined license data. -/
theorem c5_counterexample :
    analyze_license [[("erstzulassung", "2020")], [("erstzulassung", "2021")]] =
      .ok (.licenseData [("erstzulassung", "2020")]) := by
  rfl

/-- C5, amended: the processor-level matchers do fail closed — with no
identifier field populated on either side `are_same_document` and
`are_same_vehicle` return false, and `combine_results` rejects such a
batch with the filenames — but the `/analyze-license/` endpoint merges a
zero-identifier batch rather than rejecting it. -/
theorem c5_fail_closed (a b : PageResult) (c d : LicensePageResult)
    (ha : ∀ v ∈ docIdentifierValues a.analysis, v = "")
    (hb : ∀ v ∈ docIdentifierValues b.analysis, v = "")
    (hc : ∀ v ∈ vehicleIdentifierValues c.analysis, v = "")
    (hd : ∀ v ∈ vehicleIdentifierValues d.analysis, v = "") :
    are_same_document a b = false ∧
      combine_results [a, b] = .error [a.filename, b.filename] ∧
      are_same_vehicle c d = false := by
  have e1 : a.analysis.invoice_information.costumer_number = "" :=
    ha _ (by simp [docIdentifierValues])
  have e2 : a.analysis.invoice_information.order_number = "" :=
    ha _ (by simp [docIdentifierValues])
  have e3 : a.analysis.invoice_information.date_of_delivery = "" :=
    ha _ (by simp [docIdentifierValues])
  have e4 : a.analysis.vehicle_information.operating_number = "" :=
    ha _ (by simp [docIdentifierValues])
  have e5 : a.analysis.vehicle_information.first_registration = "" :=
    ha _ (by simp [docIdentifierValues])
  have e6 : a.analysis.vehicle_information.service_consultant = "" :=
    ha _ (by simp [docIdentifierValues])
  have e7 : a.analysis.vehicle_information.km_status = "" :=
    ha _ (by simp [docIdentifierValues])
  have f1 : c.analysis.vehicle_information.fin = "" :=
    hc _ (by simp [vehicleIdentifierValues])
  have f2 : c.analysis.vehicle_information.model = "" :=
    hc _ (by simp [vehicleIdentifierValues])
  have f3 : c.analysis.vehicle_information.marke = "" :=
    hc _ (by simp [vehicleIdentifierValues])
  have hdoc : are_same_document a b = false := by
    unfold are_same_document
    rw [e1, e2, e3, e4, e5, e6, e7]
    simp [agreeBit]
  refine ⟨hdoc, ?_, ?_⟩
  · simp [combine_results, adjacentOk, hdoc]
  · unfold are_same_vehicle
    rw [f1, f2, f3]
    simp [agreeBit]

/-- C5, witness for the amended theorem on concrete all-empty records. -/
theorem c5_witness :
    are_same_document
        ⟨⟨⟨"", "", "", ""⟩, ⟨"", "", "", ""⟩, ⟨"", "", "", "", "", ""⟩⟩, "e1.pdf"⟩
        ⟨⟨⟨"", "", "", ""⟩, ⟨"", "", "", ""⟩, ⟨"", "", "", "", "", ""⟩⟩, "e2.pdf"⟩ = false ∧
      combine_results
          [⟨⟨⟨"", "", "", ""⟩, ⟨"", "", "", ""⟩, ⟨"", "", "", "", "", ""⟩⟩, "e1.pdf"⟩,
           ⟨⟨⟨"", "", "", ""⟩, ⟨"", "", "", ""⟩, ⟨"", "", "", "", "", ""⟩⟩, "e2.pdf"⟩] =
        .error ["e1.pdf", "e2.pdf"] ∧
      are_same_vehicle ⟨⟨⟨"", "", "", "", "", ""⟩⟩, "l1.pdf"⟩
        ⟨⟨⟨"", "", "", "", "", ""⟩⟩, "l2.pdf"⟩ = false :=
  c5_fail_closed _ _ _ _ (by decide) (by decide) (by decide) (by decide)

/-- C6: on a compatible batch (every adjacent pair accepted by
`are_same_document`) the reducer does not fail and every section/key of
the merged record is the first non-empty value in input order, which is
`""` when every record leaves the key empty. -/
theorem c6_fill_once (results : List PageResult) (h : adjacentOk results = true) :
    combine_results results =
      .ok
        { invoice_information :=
            { invoice_number :=
                firstNonEmpty (results.map fun r => r.analysis.invoice_information.invoice_number)
              costumer_number :=
                firstNonEmpty (results.map fun r => r.analysis.invoice_information.costumer_number)
              order_number :=
                firstNonEmpty (results.map fun r => r.analysis.invoice_information.order_number)
              date_of_delivery :=
                firstNonEmpty (results.map fun r => r.analysis.invoice_information.date_of_delivery) }
          vehicle_information :=
            { operating_number :=
                firstNonEmpty (results.map fun r => r.analysis.vehicle_information.operating_number)
              first_registration :=
                firstNonEmpty (results.map fun r => r.analysis.vehicle_information.first_registration)
              service_consultant :=
                firstNonEmpty (results.map fun r => r.analysis.vehicle_information.service_consultant)
              km_status :=
                firstNonEmpty (results.map fun r => r.analysis.vehicle_information.km_status) }
          financial_information :=
            { work_price :=
                firstNonEmpty (results.map fun r => r.analysis.financial_information.work_price)
              material_price :=
                firstNonEmpty (results.map fun r => r.analysis.financial_information.material_price)
              tax_basis :=
                firstNonEmpty (results.map fun r => r.analysis.financial_information.tax_basis)
              vat_percentage :=
                firstNonEmpty (results.map fun r => r.analysis.financial_information.vat_percentage)
              vat_total :=
                firstNonEmpty (results.map fun r => r.analysis.financial_information.vat_total)
              total_amount :=
                firstNonEmpty (results.map fun r => r.analysis.financial_information.total_amount) } } ∧
      ∀ vs : List String, (∀ v ∈ vs, v = "") → firstNonEmpty vs = "" := by
  refine ⟨?_, firstNonEmpty_all_empty⟩
  simp only [combine_results, h, if_true, mergeField_eq_firstNonEmpty]

/-- C6, witness: three pairwise-compatible pages whose `invoice_number`
values are `""`, `"X"`, `"Y"` in upload order merge to `"X"` (scenario D
of the spec). -/
theorem c6_witness :
    combine_results
        [⟨⟨⟨"", "C", "O", "D"⟩, ⟨"", "", "", ""⟩, ⟨"", "", "", "", "", ""⟩⟩, "r1.pdf"⟩,
         ⟨⟨⟨"X", "C", "O", "D"⟩, ⟨"", "", "", ""⟩, ⟨"", "", "", "", "", ""⟩⟩, "r2.pdf"⟩,
         ⟨⟨⟨"Y", "C", "O", "D"⟩, ⟨"", "", "", ""⟩, ⟨"", "", "", "", "", ""⟩⟩, "r3.pdf"⟩] =
      .ok ⟨⟨"X", "C", "O", "D"⟩, ⟨"", "", "", ""⟩, ⟨"", "", "", "", "", ""⟩⟩ := by
  rw [(c6_fill_once _ (by decide)).1]
  rfl

/-- C7, counterexample: in the general-document multi-page endpoint the
first page's non-empty value does NOT win regardless of length — the
endpoint merge is longest-wins, so `"A"` from page one is overwritten by
the longer `"BB"` from page two. -/
theorem c7_counterexample :
    dictGet
        ((combineAnalyses
            [⟨⟨[("invoice number", "A")], [], []⟩, "p1.pdf"⟩,
             ⟨⟨[("invoice number", "BB")], [], []⟩, "p2.pdf"⟩]).invoice_information)
        "invoice number" = some "BB" ∧ ("BB" : String) ≠ "A" := by
  refine ⟨rfl, by decide⟩

/-- C7, amended: the `/analyze/` multi-page endpoint merge is
longest-wins (the earlier value survives only when the incoming one is
not strictly longer), while fill-once earliest-wins is the policy of the
processor's `combine_results`/`combine_license_results` methods — here
shown for `combine_license_results` on the `model` key. -/
theorem c7_merge_policies (v1 v2 : String) (h1 : v1 ≠ "") (h2 : v2 ≠ "") :
    dictGet
        ((combineAnalyses
            [⟨⟨[("invoice number", v1)], [], []⟩, "p1.pdf"⟩,
             ⟨⟨[("invoice number", v2)], [], []⟩, "p2.pdf"⟩]).invoice_information)
        "invoice number" = some (if v1.length < v2.length then v2 else v1) ∧
      ∀ results : List LicensePageResult,
        (combine_license_results results).vehicle_information.model =
          firstNonEmpty (results.map fun r => r.analysis.vehicle_information.model) := by
  constructor
  · by_cases hlen : v1.length < v2.length <;>
      simp [combineAnalyses, mergeLongestSection, mergeLongestField, dictGet, dictSet,
        List.find?, hlen]
  · intro results
    exact mergeField_eq_firstNonEmpty _

/-- C7, witness for the amended theorem: with both pages non-empty the
longer second value wins. -/
theorem c7_witness :
    dictGet
        ((combineAnalyses
            [⟨⟨[("invoice number", "X")], [], []⟩, "p1.pdf"⟩,
             ⟨⟨[("invoice number", "YY")], [], []⟩, "p2.pdf"⟩]).invoice_information)
        "invoice number" = some "YY" :=
  ((c7_merge_policies "X" "YY" (by decide) (by decide)).1).trans (by decide)

/-- C8: the Record Organizers (`organize_data`, `organize_license_data`)
are total functions into the fixed schema types — every schema key is
present by construction — and every schema key whose provider field name
is missing from the raw field set comes out as the empty string. -/
theorem c8_organizer_defaults (raw : List (String × String)) :
    (dictGet raw "invoice number" = none →
      (organize_data raw).invoice_information.invoice_number = "") ∧
    (dictGet raw "costumer number" = none →
      (organize_data raw).invoice_information.costumer_number = "") ∧
    (dictGet raw "order number" = none →
      (organize_data raw).invoice_information.order_number = "") ∧
    (dictGet raw "date/day of delivery" = none →
      (organize_data raw).invoice_information.date_of_delivery = "") ∧
    (dictGet raw "operating number" = none →
      (organize_data raw).vehicle_information.operating_number = "") ∧
    (dictGet raw "date of first registration" = none →
      (organize_data raw).vehicle_information.first_registration = "") ∧
    (dictGet raw "service consultant" = none →
      (organize_data raw).vehicle_information.service_consultant = "") ∧
    (dictGet raw "km-status" = none →
      (organize_data raw).vehicle_information.km_status = "") ∧
    (dictGet raw "work price total" = none →
      (organize_data raw).financial_information.work_price = "") ∧
    (dictGet raw "material price total" = none →
      (organize_data raw).financial_information.material_price = "") ∧
    (dictGet raw "tax basis" = none →
      (organize_data raw).financial_information.tax_basis = "") ∧
    (dictGet raw "VAT percentage" = none →
      (organize_data raw).financial_information.vat_percentage = "") ∧
    (dictGet raw "VAT total" = none →
      (organize_data raw).financial_information.vat_total = "") ∧
    (dictGet raw "total amount" = none →
      (organize_data raw).financial_information.total_amount = "") ∧
    (dictGet raw "model" = none →
      (organize_license_data raw).vehicle_information.model = "") ∧
    (dictGet raw "marke" = none →
      (organize_license_data raw).vehicle_information.marke = "") ∧
    (dictGet raw "fin" = none →
      (organize_license_data raw).vehicle_information.fin = "") ∧
    (dictGet raw "erstzulassung" = none →
      (organize_license_data raw).vehicle_information.erstzulassung = "") ∧
    (dictGet raw "letze wartung" = none →
      (organize_license_data raw).vehicle_information.letze_wartung = "") ∧
    (dictGet raw "type/variant/version" = none →
      (organize_license_data raw).vehicle_information.type_variant_version = "") := by
  refine ⟨?_, ?_, ?_, ?_, ?_, ?_, ?_, ?_, ?_, ?_, ?_, ?_, ?_, ?_, ?_, ?_, ?_, ?_, ?_, ?_⟩ <;>
    · intro h
      simp [organize_data, organize_license_data, rawGet, h, clean_value_empty]

/-- C8, witness: on the empty raw field set every schema key of both
profiles is the empty string. -/
theorem c8_witness :
    (organize_data []).invoice_information.invoice_number = "" ∧
    (organize_data []).invoice_information.costumer_number = "" ∧
    (organize_data []).invoice_information.order_number = "" ∧
    (organize_data []).invoice_information.date_of_delivery = "" ∧
    (organize_data []).vehicle_information.operating_number = "" ∧
    (organize_data []).vehicle_information.first_registration = "" ∧
    (organize_data []).vehicle_information.service_consultant = "" ∧
    (organize_data []).vehicle_information.km_status = "" ∧
    (organize_data []).financial_information.work_price = "" ∧
    (organize_data []).financial_information.material_price = "" ∧
    (organize_data []).financial_information.tax_basis = "" ∧
    (organize_data []).financial_information.vat_percentage = "" ∧
    (organize_data []).financial_information.vat_total = "" ∧
    (organize_data []).financial_information.total_amount = "" ∧
    (organize_license_data []).vehicle_information.model = "" ∧
    (organize_license_data []).vehicle_information.marke = "" ∧
    (organize_license_data []).vehicle_information.fin = "" ∧
    (organize_license_data []).vehicle_information.erstzulassung = "" ∧
    (organize_license_data []).vehicle_information.letze_wartung = "" ∧
    (organize_license_data []).vehicle_information.type_variant_version = "" := by
  obtain ⟨h1, h2, h3, h4, h5, h6, h7, h8, h9, h10,
    h11, h12, h13, h14, h15, h16, h17, h18, h19, h20⟩ := c8_organizer_defaults []
  exact ⟨h1 rfl, h2 rfl, h3 rfl, h4 rfl, h5 rfl, h6 rfl, h7 rfl, h8 rfl, h9 rfl, h10 rfl,
    h11 rfl, h12 rfl, h13 rfl, h14 rfl, h15 rfl, h16 rfl, h17 rfl, h18 rfl, h19 rfl, h20 rfl⟩

/-- C9 (evaluation at the failing input): the handler body does raise the
intended HTTP 400 for an empty batch, but the blanket
`except Exception` of `analyze_files` catches that `HTTPException` and
re-raises it as HTTP 500, so the caller sees a server error, not a
client-fault error. -/
theorem c9_empty_batch_surfaces_500 :
    analyze_files_body [] = .error ⟨400, "No files provided"⟩ ∧
      analyze_files [] = .error ⟨500, "Error processing document: No files provided"⟩ :=
  ⟨rfl, rfl⟩

/-- C10: in the multi-page path of `/analyze/`, the batch is rejected with
a mismatch report exactly when some validation field takes two distinct
values on pages that carry it — one conflicting field suffices regardless
of the other fields, and pages on which the field is absent contribute no
value. -/
theorem c10_mismatch_iff (pages : List DictPage) (h : 2 ≤ pages.length) :
    isMismatchReject (analyze_files pages) = true ↔
      ∃ cf ∈ validation_fields, ∃ p ∈ pages, ∃ q ∈ pages, ∃ v w,
        dictGet (sectionOf p.analysis cf.1) cf.2 = some v ∧
        dictGet (sectionOf q.analysis cf.1) cf.2 = some w ∧ v ≠ w := by
  rcases pages with - | ⟨a, - | ⟨b, rest⟩⟩
  · simp at h
  · simp at h
  · by_cases hm : mismatchFields (a :: b :: rest) = []
    · have hred : analyze_files (a :: b :: rest) =
          .ok (.merged (combineAnalyses (a :: b :: rest))
            ((a :: b :: rest).map fun p => p.filename)) := by
        simp [analyze_files, analyze_files_body, hm]
      rw [hred]
      simp only [isMismatchReject]
      constructor
      · intro hfalse; cases hfalse
      · rintro ⟨cf, hcf, p, hp, q, hq, v, w, hv, hw, hvw⟩
        exfalso
        have h2 : 2 ≤ (fieldValues (a :: b :: rest) cf).length :=
          (fieldValues_two_iff _ _).mpr ⟨p, hp, q, hq, v, w, hv, hw, hvw⟩
        exact (mismatchFields_ne_nil_iff _).mpr ⟨cf, hcf, h2⟩ hm
    · have hne : mismatchFields (a :: b :: rest) ≠ [] := hm
      have hred : analyze_files (a :: b :: rest) =
          .ok (.mismatch (mismatchFields (a :: b :: rest))
            ((a :: b :: rest).map fun p => p.filename)) := by
        simp [analyze_files, analyze_files_body, hm]
      rw [hred]
      simp only [isMismatchReject]
      constructor
      · intro _
        obtain ⟨cf, hcf, hlen⟩ := (mismatchFields_ne_nil_iff _).mp hne
        obtain ⟨p, hp, q, hq, v, w, hv, hw, hvw⟩ := (fieldValues_two_iff _ _).mp hlen
        exact ⟨cf, hcf, p, hp, q, hq, v, w, hv, hw, hvw⟩
      · intro _; trivial

/-- C10, witness: two pages disagreeing only on the validation field
`invoice number` are rejected. -/
theorem c10_witness :
    isMismatchReject
        (analyze_files
          [⟨⟨[("invoice number", "A")], [], []⟩, "f1.pdf"⟩,
           ⟨⟨[("invoice number", "B")], [], []⟩, "f2.pdf"⟩]) = true := by
  refine (c10_mismatch_iff _ (by decide)).mpr ?_
  exact ⟨("invoice_information", "invoice number"), by decide,
    ⟨⟨[("invoice number", "A")], [], []⟩, "f1.pdf"⟩, by decide,
    ⟨⟨[("invoice number", "B")], [], []⟩, "f2.pdf"⟩, by decide,
    "A", "B", by decide, by decide, by decide⟩

/-- C2, witness for the amended theorem at the concrete input `"ab\ncd"`. -/
theorem c2_witness : '\n' ∉ (clean_financial_value "ab\ncd").data :=
  c2_financial_no_linebreak "ab\ncd"
